import Mathlib

/-
  Verification development for the UEServer RPC plugin
  (src/rpc/Source/UEServer/Private/UEServerRPC.cpp and its header).

  The embedding models the JSON values the code builds with FJsonObject as
  association lists of fields in insertion order, the Slate widget tree as a
  finite tree of node data, the switchboard file as a parsed instance list
  (or an absent/corrupt file), and the server lifecycle (Start) as a state
  transition parameterised over the outcomes of the OS-level calls (socket
  creation, bind, listen, directory creation, file writes).  Numeric JSON
  fields are modelled as integers: no claim under study depends on
  floating-point behaviour.
-/

namespace UEServer

/-- Minimal JSON value model for the objects built via FJsonObject.
Objects keep their fields as an insertion-ordered association list. -/
inductive Json where
  | null : Json
  | bool (b : Bool) : Json
  | num (n : Int) : Json
  | str (s : String) : Json
  | arr (elems : List Json) : Json
  | obj (fields : List (String × Json)) : Json

/-- A JSON object body: fields in insertion order. -/
abbrev JsonObj := List (String × Json)

/-- First field with the given name, mirroring FJsonObject field lookup. -/
def getField (o : JsonObj) (k : String) : Option Json :=
  match o with
  | [] => none
  | (k2, v) :: rest => if k2 = k then some v else getField rest k

/-- Mirrors FJsonObject::HasField. -/
def hasField (o : JsonObj) (k : String) : Bool :=
  (getField o k).isSome

/-- Mirrors FJsonObject::GetStringField: a missing or non-string field
yields the empty string (the UE implementation logs and returns empty). -/
def getStringField (o : JsonObj) (k : String) : String :=
  match getField o k with
  | some (Json.str s) => s
  | _ => ""

/-- Mirrors FJsonObject::GetIntegerField on numeric fields: a missing or
non-numeric field yields 0.  (String-to-number coercion of AsNumber is not
modelled; no claim exercises it.) -/
def getIntegerField (o : JsonObj) (k : String) : Int :=
  match getField o k with
  | some (Json.num n) => n
  | _ => 0

/-- Per-node data the serializer reads from an SWidget through the host
interface: type string, visibility, enabled state, cached geometry and
accessible text. -/
structure WidgetData where
  wtype : String
  visible : Bool
  enabled : Bool
  gx : Int
  gy : Int
  gwidth : Int
  gheight : Int
  text : String

/-- A Slate widget: its own data plus its ordered children
(FChildren in the host). -/
inductive Widget where
  | mk (data : WidgetData) (children : List Widget)

/-- The ordered child list of a widget. -/
def Widget.kids : Widget → List Widget
  | .mk _ cs => cs

/-- The node data of a widget. -/
def Widget.info : Widget → WidgetData
  | .mk d _ => d

mutual
/-- The body of FUEServerRPC::SerializeWidget for a valid widget
reference: returns none when the depth budget is exhausted, otherwise
builds the node object.  Note the source writes child_count from
ChildrenArray.Num(), the number of serialized children, in the branch
where the widget has children, and writes 0 otherwise. -/
def serializeWidgetV : Widget → Int → Int → Option Json
  | .mk d cs, maxDepth, currentDepth =>
    if currentDepth ≥ maxDepth then none
    else
      let geometryObj : Json := Json.obj
        [(("x"), Json.num d.gx), (("y"), Json.num d.gy),
         (("width"), Json.num d.gwidth), (("height"), Json.num d.gheight)]
      let baseFields : JsonObj :=
        [(("type"), Json.str d.wtype),
         (("visible"), Json.bool d.visible),
         (("enabled"), Json.bool d.enabled),
         (("geometry"), geometryObj)]
      let withText : JsonObj :=
        if d.text = ("") then baseFields
        else baseFields ++ [(("text"), Json.str d.text)]
      if cs.length > 0 then
        let childrenArray := serializeChildren cs maxDepth (currentDepth + 1)
        some (Json.obj (withText ++
          [(("children"), Json.arr childrenArray),
           (("child_count"), Json.num childrenArray.length)]))
      else
        some (Json.obj (withText ++ [(("child_count"), Json.num 0)]))

/-- The loop over children inside SerializeWidget (and over windows inside
HandleUIGetTree): serialize each element, keeping only the valid results.
Each recursive call site of the source passes a valid shared reference, so
the null guard of SerializeWidget never fires here. -/
def serializeChildren : List Widget → Int → Int → List Json
  | [], _, _ => []
  | c :: rest, maxDepth, childDepth =>
    match serializeWidgetV c maxDepth childDepth with
    | some childObj => childObj :: serializeChildren rest maxDepth childDepth
    | none => serializeChildren rest maxDepth childDepth
end

/-- Shallow embedding of FUEServerRPC::SerializeWidget including its
guard: an invalid widget reference (the none input) yields none. -/
def serializeWidget : Option Widget → Int → Int → Option Json
  | none, _, _ => none
  | some w, maxDepth, currentDepth => serializeWidgetV w maxDepth currentDepth

/-- Field lookup inside an optional JSON object result. -/
def fieldOf (r : Option Json) (k : String) : Option Json :=
  match r with
  | some (Json.obj fields) => getField fields k
  | _ => none

/-- Host UI state the dispatcher consults: whether Slate is available
(FSlateApplication::IsInitialized) and the ordered visible top-level
windows (GetAllVisibleWindowsOrdered). -/
structure SlateHost where
  isInit : Bool
  windows : List Widget

/-- Shallow embedding of FUEServerRPC::HandlePing. -/
def handlePing (request : JsonObj) : JsonObj :=
  let response : JsonObj :=
    [(("ok"), Json.bool true), (("op"), Json.str ("ping")),
     (("version"), Json.str ("0.1.0"))]
  if hasField request ("id") then
    response ++ [(("id"), Json.str (getStringField request ("id")))]
  else
    response

/-- Shallow embedding of FUEServerRPC::HandleUIGetTree. -/
def handleUIGetTree (host : SlateHost) (request : JsonObj) : JsonObj :=
  let maxDepth : Int :=
    if hasField request ("max_depth") then getIntegerField request ("max_depth")
    else 10
  let idFields : JsonObj :=
    if hasField request ("id") then
      [(("id"), Json.str (getStringField request ("id")))]
    else []
  let headerFields : JsonObj := idFields ++ [(("op"), Json.str ("ui.get_tree"))]
  if !host.isInit then
    headerFields ++
      [(("ok"), Json.bool false),
       (("error"), Json.str ("Slate application not initialized"))]
  else
    let windowsArray := serializeChildren host.windows maxDepth 0
    headerFields ++
      [(("ok"), Json.bool true),
       (("windows"), Json.arr windowsArray),
       (("window_count"), Json.num host.windows.length)]

/-- Shallow embedding of FUEServerRPC::ProcessRequest.  The JSON text codec
is out of scope (a standard library in the source); its outcome is the
input: none models a byte sequence that fails to decode as a JSON object,
some gives the decoded object. -/
def processRequest (host : SlateHost) (decoded : Option JsonObj) : JsonObj :=
  match decoded with
  | none =>
    [(("ok"), Json.bool false), (("error"), Json.str ("Invalid JSON"))]
  | some request =>
    let op := getStringField request ("op")
    if op = ("ping") then handlePing request
    else if op = ("ui.get_tree") then handleUIGetTree host request
    else
      [(("ok"), Json.bool false), (("op"), Json.str op),
       (("error"), Json.str (("Unknown operation: ") ++ op))]

/-- The per-instance data Register writes besides the pid: port, optional
project path (null when empty), project name, start timestamp. -/
structure InstanceData where
  port : Int
  project : Option String
  project_name : String
  started : String

/-- One element of the instances array of the switchboard file.  The code
treats an element that fails TryGetObject as non-matching and passes it
through; obj carries the pid read by GetIntegerField (0 when the field is
missing) plus the rest of the record. -/
inductive SBVal where
  | obj (pid : Int) (data : InstanceData) : SBVal
  | nonObj (raw : String) : SBVal

/-- The RemoveAll lambda of Register and Unregister: an instance matches
when it is an object whose pid field equals the current process pid. -/
def matchesPid (pid : Int) : SBVal → Bool
  | .obj p _ => p == pid
  | .nonObj _ => false

/-- TArray::RemoveAll with the pid-match lambda: drop every matching
element, keeping the rest in their original relative order. -/
def removeAllPid (pid : Int) : List SBVal → List SBVal
  | [] => []
  | v :: rest =>
    if matchesPid pid v then removeAllPid pid rest
    else v :: removeAllPid pid rest

/-- Number of instance records matching a pid. -/
def countPid (pid : Int) (l : List SBVal) : Nat :=
  l.countP (matchesPid pid)

/-- The read-modify part of RegisterInSwitchboard on the instances array:
remove stale entries for this pid, then append the new instance. -/
def registerList (pid : Int) (inst : InstanceData) (l : List SBVal) : List SBVal :=
  removeAllPid pid l ++ [SBVal.obj pid inst]

/-- The switchboard file as the registry code observes it: absent, present
but unreadable or unparseable (or lacking the instances array), or parsed
into an instances list. -/
inductive SBFile where
  | absent : SBFile
  | corrupt (raw : String) : SBFile
  | parsed (instances : List SBVal) : SBFile

/-- What Register starts from: a missing or corrupt file is treated as an
empty instance set, never an error. -/
def readInstances : SBFile → List SBVal
  | .absent => []
  | .corrupt _ => []
  | .parsed l => l

/-- Outcomes of the filesystem calls Register makes. -/
structure RegEnv where
  dirOk : Bool
  serializeOk : Bool
  writeOk : Bool

/-- Shallow embedding of FUEServerRPC::RegisterInSwitchboard: ensure the
directory, read the current instances (missing/corrupt treated as empty),
remove entries with this pid, append the new record, serialize and write.
A failed step returns false and the file is left as it was. -/
def registerInSwitchboard (env : RegEnv) (pid : Int) (inst : InstanceData)
    (file : SBFile) : Bool × SBFile :=
  if !env.dirOk then (false, file)
  else
    let instances := registerList pid inst (readInstances file)
    if !env.serializeOk then (false, file)
    else if !env.writeOk then (false, file)
    else (true, SBFile.parsed instances)

/-- Outcomes of the filesystem calls Unregister makes (its save result is
ignored by the code; a failed save is modelled as leaving the file as it
was). -/
structure UnregEnv where
  loadOk : Bool
  serializeOk : Bool
  saveOk : Bool

/-- Shallow embedding of FUEServerRPC::UnregisterFromSwitchboard: return
silently when the file is absent, unreadable or unparseable; otherwise
remove the entries with this pid and write the result back. -/
def unregisterFromSwitchboard (env : UnregEnv) (pid : Int) (file : SBFile) : SBFile :=
  match file with
  | .absent => SBFile.absent
  | .corrupt raw => SBFile.corrupt raw
  | .parsed l =>
    if !env.loadOk then SBFile.parsed l
    else if !env.serializeOk then SBFile.parsed l
    else if !env.saveOk then SBFile.parsed l
    else SBFile.parsed (removeAllPid pid l)

/-- Observable server state: whether ListenerSocket is non-null, the Port
member (returned by GetPort), the bIsRunning flag, whether a server thread
was created, and the switchboard file. -/
structure World where
  hasSocket : Bool
  port : Int
  running : Bool
  threadStarted : Bool
  board : SBFile

/-- Outcomes of the socket-subsystem calls CreateListenerSocket makes, and
the port the OS assigns at bind time. -/
structure SocketEnv where
  subsystemOk : Bool
  createOk : Bool
  ipValid : Bool
  bindOk : Bool
  assignedPort : Int
  listenOk : Bool

/-- Shallow embedding of FUEServerRPC::CreateListenerSocket: create the
socket, set reuse, bind to 127.0.0.1:0, read back the assigned port into
the Port member, then listen.  Every failure destroys the socket and
returns false; note the source assigns Port after a successful bind and
does not reset it when Listen fails. -/
def createListenerSocket (env : SocketEnv) (w : World) : Bool × World :=
  if !env.subsystemOk then (false, w)
  else if !env.createOk then (false, w)
  else
    let w1 : World := { w with hasSocket := true }
    if !env.ipValid then (false, { w1 with hasSocket := false })
    else if !env.bindOk then (false, { w1 with hasSocket := false })
    else
      let w2 : World := { w1 with port := env.assignedPort }
      if !env.listenOk then (false, { w2 with hasSocket := false })
      else (true, w2)

/-- Everything the environment decides during one Start call. -/
structure StartEnv where
  sockEnv : SocketEnv
  regEnv : RegEnv
  unregEnv : UnregEnv
  pid : Int
  inst : InstanceData

/-- Shallow embedding of FUEServerRPC::Start: refuse when already running;
create the listener socket; register in the switchboard, and on a failed
registration call Unregister and fail; otherwise set bIsRunning and create
the server thread. -/
def start (env : StartEnv) (w : World) : Bool × World :=
  if w.running then (false, w)
  else
    let r1 := createListenerSocket env.sockEnv w
    if !r1.1 then (false, r1.2)
    else
      let r2 := registerInSwitchboard env.regEnv env.pid env.inst r1.2.board
      if !r2.1 then
        (false, { r1.2 with
          board := unregisterFromSwitchboard env.unregEnv env.pid r2.2 })
      else
        (true, { r1.2 with board := r2.2, running := true, threadStarted := true })

/-- A freshly constructed FUEServerRPC as far as the modelled state goes:
no socket, Port = 0, not running, no thread.  The switchboard file on disk
is arbitrary. -/
def freshWorld (board : SBFile) : World :=
  { hasSocket := false, port := 0, running := false, threadStarted := false,
    board := board }

/- ------------------------------------------------------------------ -/
/- Helper lemmas                                                      -/
/- ------------------------------------------------------------------ -/

@[simp] theorem getField_nil (k : String) : getField [] k = none := rfl

@[simp] theorem getField_cons (k2 : String) (v : Json) (rest : JsonObj) (k : String) :
    getField ((k2, v) :: rest) k = if k2 = k then some v else getField rest k := rfl

@[simp] theorem getField_append (l1 l2 : JsonObj) (k : String) :
    getField (l1 ++ l2) k = (getField l1 k).or (getField l2 k) := by
  induction l1 with
  | nil => simp
  | cons p rest ih =>
    obtain ⟨k2, v⟩ := p
    by_cases h : k2 = k <;> simp [h, ih]

/- ------------------------------------------------------------------ -/
/- Claim C5                                                           -/
/- ------------------------------------------------------------------ -/

/-- Claim C5: for every input byte sequence that fails to decode as a JSON
object (modelled as a failed decode fed to the dispatcher), ProcessRequest
returns the object with ok false and error Invalid JSON, carrying no op
field and no id echo. -/
theorem c5_invalid_json_response (host : SlateHost) :
    processRequest host none =
      [(("ok"), Json.bool false), (("error"), Json.str ("Invalid JSON"))]
    ∧ getField (processRequest host none) ("op") = none
    ∧ getField (processRequest host none) ("id") = none :=
  ⟨rfl, rfl, rfl⟩

/- ------------------------------------------------------------------ -/
/- Claim C7                                                           -/
/- ------------------------------------------------------------------ -/

/-- Claim C7: for every decoded request whose op string matches no
registered handler, the response has ok false, echoes the op verbatim, and
its error field contains that op name. -/
theorem c7_unknown_op (host : SlateHost) (request : JsonObj) (s : String)
    (hop : getField request ("op") = some (Json.str s))
    (hping : s ≠ ("ping")) (htree : s ≠ ("ui.get_tree")) :
    processRequest host (some request) =
      [(("ok"), Json.bool false), (("op"), Json.str s),
       (("error"), Json.str (("Unknown operation: ") ++ s))]
    ∧ getField (processRequest host (some request)) ("op") = some (Json.str s)
    ∧ ∃ pre suf : String,
        (("Unknown operation: ") ++ s) = pre ++ s ++ suf := by
  have hs : getStringField request ("op") = s := by
    simp [getStringField, hop]
  refine ⟨?_, ?_, ("Unknown operation: "), (""), by simp⟩
  · simp [processRequest, hs, hping, htree]
  · simp [processRequest, hs, hping, htree, getField]

/-- Witness for C7 at a concrete unknown operation. -/
theorem c7_unknown_op_witness :
    (getField [(("op"), Json.str ("nope"))] ("op") = some (Json.str ("nope"))
      ∧ ("nope") ≠ ("ping") ∧ ("nope") ≠ ("ui.get_tree"))
    ∧ getField (processRequest (SlateHost.mk true []) (some [(("op"), Json.str ("nope"))])) ("op")
        = some (Json.str ("nope")) :=
  ⟨⟨rfl, by decide, by decide⟩,
    (c7_unknown_op (SlateHost.mk true []) [(("op"), Json.str ("nope"))] ("nope")
      rfl (by decide) (by decide)).2.1⟩

/- ------------------------------------------------------------------ -/
/- Claim C6                                                           -/
/- ------------------------------------------------------------------ -/

/-- Claim C6: every response the dispatcher produces, for any decoded
input and any host UI state, carries a boolean ok field, has an error
field when ok is false, and carries no error field when ok is true. -/
theorem c6_ok_error_envelope (host : SlateHost) (decoded : Option JsonObj) :
    ∃ b : Bool,
      getField (processRequest host decoded) ("ok") = some (Json.bool b)
      ∧ (getField (processRequest host decoded) ("error")).isSome = !b := by
  cases decoded with
  | none => exact ⟨false, rfl, rfl⟩
  | some request =>
    simp only [processRequest]
    split_ifs with hping htree
    · -- ping handler: ok true, no error
      refine ⟨true, ?_, ?_⟩ <;>
        · simp only [handlePing]
          split_ifs with hid <;> simp
    · -- ui.get_tree handler
      simp only [handleUIGetTree]
      by_cases hinit : host.isInit
      · refine ⟨true, ?_, ?_⟩ <;>
          · simp only [hinit, Bool.not_true, Bool.false_eq_true, if_false]
            split_ifs with hid <;> simp
      · have hinit2 : host.isInit = false := by
          cases h : host.isInit
          · rfl
          · exact absurd h hinit
        refine ⟨false, ?_, ?_⟩ <;>
          · simp only [hinit2, Bool.not_false, if_true]
            split_ifs with hid <;> simp
    · -- unknown operation
      exact ⟨false, by simp, by simp⟩

/- ------------------------------------------------------------------ -/
/- Serializer lemmas                                                  -/
/- ------------------------------------------------------------------ -/

/-- The guarded serializer on a valid reference is the serializer body. -/
theorem serializeWidget_some_eq (w : Widget) (maxD curD : Int) :
    serializeWidget (some w) maxD curD = serializeWidgetV w maxD curD := rfl

/-- A widget at or beyond the depth budget serializes to nothing. -/
theorem serializeWidget_none_of_le (w : Widget) (maxD curD : Int) (h : maxD ≤ curD) :
    serializeWidget (some w) maxD curD = none := by
  cases w with
  | mk d cs =>
    rw [serializeWidget_some_eq, serializeWidgetV]
    exact if_pos h

/-- A widget strictly within the depth budget serializes to some object. -/
theorem serializeWidget_isSome_of_lt (w : Widget) (maxD curD : Int) (h : curD < maxD) :
    (serializeWidget (some w) maxD curD).isSome = true := by
  cases w with
  | mk d cs =>
    rw [serializeWidget_some_eq, serializeWidgetV]
    rw [if_neg (not_le.mpr h)]
    by_cases hcs : cs.length > 0 <;> simp [hcs]

/-- The child loop on an empty child list yields the empty array. -/
@[simp] theorem serializeChildren_nil_eq (maxD curD : Int) :
    serializeChildren [] maxD curD = [] := rfl

/-- With the budget exhausted, the child loop yields the empty array. -/
theorem serializeChildren_nil_of_le (ws : List Widget) (maxD curD : Int)
    (h : maxD ≤ curD) : serializeChildren ws maxD curD = [] := by
  induction ws with
  | nil => rfl
  | cons c rest ih =>
    have hnone : serializeWidgetV c maxD curD = none :=
      serializeWidget_none_of_le c maxD curD h
    rw [serializeChildren, hnone]
    exact ih

/-- Strictly within the budget, every child serializes, so the child loop
returns one object per child. -/
theorem serializeChildren_length_of_lt (ws : List Widget) (maxD curD : Int)
    (h : curD < maxD) : (serializeChildren ws maxD curD).length = ws.length := by
  induction ws with
  | nil => rfl
  | cons c rest ih =>
    have hsome := serializeWidget_isSome_of_lt c maxD curD h
    obtain ⟨j, hj⟩ := Option.isSome_iff_exists.mp hsome
    rw [serializeWidget_some_eq] at hj
    rw [serializeChildren, hj]
    simp [ih]

/- ------------------------------------------------------------------ -/
/- Claim C1                                                           -/
/- ------------------------------------------------------------------ -/

/-- Concrete leaf widget used in counterexamples. -/
def cexChild : Widget :=
  Widget.mk (WidgetData.mk ("SButton") true true 0 0 10 10 ("")) []

/-- Concrete one-child widget used in counterexamples. -/
def cexParent : Widget :=
  Widget.mk (WidgetData.mk ("SBox") true true 0 0 20 20 ("")) [cexChild]

/-- Counterexample to claim C1 as stated: the parent widget has one child
in the host tree, is itself serialized within the depth budget
(maxDepth 1, currentDepth 0), yet its child_count field is 0 — the code
records the number of serialized children, not the true child count. -/
theorem c1_counterexample :
    fieldOf (serializeWidget (some cexParent) 1 0) ("child_count") = some (Json.num 0)
    ∧ cexParent.kids.length = 1 :=
  ⟨rfl, rfl⟩

/-- Claim C1 amended: for every node serialized within the depth budget,
child_count equals the number of children actually serialized into the
children array; this equals the true child count whenever the children are
themselves within the budget (currentDepth + 1 < maxDepth), but can be
smaller when the depth cut-off excludes children. -/
theorem c1_child_count (d : WidgetData) (cs : List Widget) (maxD curD : Int)
    (h : curD < maxD) :
    (serializeWidget (some (Widget.mk d cs)) maxD curD).isSome = true
    ∧ fieldOf (serializeWidget (some (Widget.mk d cs)) maxD curD) ("child_count")
        = some (Json.num ((serializeChildren cs maxD (curD + 1)).length))
    ∧ (curD + 1 < maxD → (serializeChildren cs maxD (curD + 1)).length = cs.length) := by
  refine ⟨serializeWidget_isSome_of_lt _ maxD curD h, ?_,
    fun h2 => serializeChildren_length_of_lt cs maxD (curD + 1) h2⟩
  rw [serializeWidget_some_eq, serializeWidgetV]
  rw [if_neg (not_le.mpr h)]
  by_cases hcs : cs.length > 0
  · by_cases htext : d.text = ("") <;> simp [htext, hcs, fieldOf]
  · have hnil : cs = [] := List.length_eq_zero.mp (by omega)
    subst hnil
    by_cases htext : d.text = ("") <;> simp [htext, fieldOf]

/-- Witness for the amended C1 at a concrete widget and depth. -/
theorem c1_child_count_witness :
    ((0 : Int) < 2)
    ∧ fieldOf (serializeWidget
        (some (Widget.mk (WidgetData.mk ("SBox") true true 0 0 20 20 ("")) [cexChild])) 2 0)
        ("child_count")
        = some (Json.num ((serializeChildren [cexChild] 2 (0 + 1)).length)) :=
  ⟨by decide,
    (c1_child_count (WidgetData.mk ("SBox") true true 0 0 20 20 ("")) [cexChild] 2 0
      (by decide)).2.1⟩

/- ------------------------------------------------------------------ -/
/- Claim C2                                                           -/
/- ------------------------------------------------------------------ -/

/-- Concrete available host with a single top-level root. -/
def cexHost : SlateHost := SlateHost.mk true [cexParent]

/-- Concrete ui.get_tree request with max_depth 0. -/
def cexTreeReq : JsonObj :=
  [(("op"), Json.str ("ui.get_tree")), (("max_depth"), Json.num 0)]

/-- Counterexample to claim C2 as stated: with the host UI available and
one top-level root, a ui.get_tree request with max_depth 0 yields an empty
windows array — not one NodeSnapshot per root — because the roots
themselves are cut off by the depth check (currentDepth 0 is already at
the budget). -/
theorem c2_counterexample :
    getField (processRequest cexHost (some cexTreeReq)) ("windows")
      = some (Json.arr [])
    ∧ cexHost.windows.length = 1 :=
  ⟨rfl, rfl⟩

/-- Claim C2 amended: a ui.get_tree request with max_depth 0 while the
host UI is available succeeds with ok true, but its windows array is empty
(every root is excluded by the depth cut-off, so no NodeSnapshot and no
child_count is reported for any root), while window_count still reports
the number of top-level roots. -/
theorem c2_max_depth_zero (host : SlateHost) (request : JsonObj)
    (hinit : host.isInit = true)
    (hop : getField request ("op") = some (Json.str ("ui.get_tree")))
    (hmd : getField request ("max_depth") = some (Json.num 0)) :
    getField (processRequest host (some request)) ("ok") = some (Json.bool true)
    ∧ getField (processRequest host (some request)) ("windows") = some (Json.arr [])
    ∧ getField (processRequest host (some request)) ("window_count")
        = some (Json.num host.windows.length) := by
  have hs : getStringField request ("op") = ("ui.get_tree") := by
    simp [getStringField, hop]
  have hmdh : hasField request ("max_depth") = true := by
    simp [hasField, hmd]
  have hmdi : getIntegerField request ("max_depth") = 0 := by
    simp [getIntegerField, hmd]
  have hwin : serializeChildren host.windows 0 0 = [] :=
    serializeChildren_nil_of_le host.windows 0 0 le_rfl
  refine ⟨?_, ?_, ?_⟩ <;>
    · simp only [processRequest, hs]
      rw [if_neg (by decide : ¬ ("ui.get_tree" : String) = ("ping"))]
      by_cases hid : hasField request ("id") = true <;>
        simp [handleUIGetTree, hmdh, hmdi, hinit, hid, hwin]

/-- Witness for the amended C2 at a concrete host and request. -/
theorem c2_max_depth_zero_witness :
    (cexHost.isInit = true
      ∧ getField cexTreeReq ("op") = some (Json.str ("ui.get_tree"))
      ∧ getField cexTreeReq ("max_depth") = some (Json.num 0))
    ∧ getField (processRequest cexHost (some cexTreeReq)) ("window_count")
        = some (Json.num cexHost.windows.length) :=
  ⟨⟨rfl, rfl, rfl⟩, (c2_max_depth_zero cexHost cexTreeReq rfl rfl rfl).2.2⟩

/- ------------------------------------------------------------------ -/
/- Registry lemmas                                                    -/
/- ------------------------------------------------------------------ -/

/-- RemoveAll keeps exactly the non-matching elements in order. -/
theorem removeAllPid_eq_filter (pid : Int) (l : List SBVal) :
    removeAllPid pid l = l.filter (fun v => !matchesPid pid v) := by
  induction l with
  | nil => rfl
  | cons v rest ih =>
    by_cases h : matchesPid pid v = true <;> simp [removeAllPid, h, ih]

/-- RemoveAll distributes over append. -/
theorem removeAllPid_append (pid : Int) (l1 l2 : List SBVal) :
    removeAllPid pid (l1 ++ l2) = removeAllPid pid l1 ++ removeAllPid pid l2 := by
  simp [removeAllPid_eq_filter]

/-- RemoveAll leaves no matching element behind. -/
theorem countPid_removeAllPid (pid : Int) (l : List SBVal) :
    countPid pid (removeAllPid pid l) = 0 := by
  rw [countPid, removeAllPid_eq_filter, List.countP_eq_zero]
  intro v hv
  have := List.of_mem_filter hv
  simp_all

/-- RemoveAll is idempotent. -/
theorem removeAllPid_idem (pid : Int) (l : List SBVal) :
    removeAllPid pid (removeAllPid pid l) = removeAllPid pid l := by
  simp only [removeAllPid_eq_filter, List.filter_filter]
  exact List.filter_congr (fun v _ => by cases h : matchesPid pid v <;> simp [h])

/-- RemoveAll erases a freshly appended record for the same pid. -/
theorem removeAllPid_own_obj (pid : Int) (i : InstanceData) :
    removeAllPid pid [SBVal.obj pid i] = [] := by
  simp [removeAllPid, matchesPid]

/-- RemoveAll is the identity when nothing matches. -/
theorem removeAllPid_of_no_match (pid : Int) (l : List SBVal)
    (h : ∀ v ∈ l, matchesPid pid v = false) :
    removeAllPid pid l = l := by
  rw [removeAllPid_eq_filter]
  exact List.filter_eq_self.mpr (fun v hv => by simp [h v hv])

/- ------------------------------------------------------------------ -/
/- Claim C4                                                           -/
/- ------------------------------------------------------------------ -/

/-- Claim C4: with the filesystem cooperating, registering twice under the
same pid supersedes the first registration and leaves exactly one record
for that pid in the store, and unregistering a pid with no record in the
store is a no-op that does not error (for every I/O outcome). -/
theorem c4_registry_idempotent (env : RegEnv) (uenv : UnregEnv) (pid : Int)
    (i1 i2 : InstanceData) (file : SBFile) (l0 : List SBVal)
    (hdir : env.dirOk = true) (hser : env.serializeOk = true)
    (hwr : env.writeOk = true)
    (habsent : ∀ v ∈ l0, matchesPid pid v = false) :
    (registerInSwitchboard env pid i2 ((registerInSwitchboard env pid i1 file).2)).2
        = (registerInSwitchboard env pid i2 file).2
    ∧ (∃ l, (registerInSwitchboard env pid i1 file).2 = SBFile.parsed l
        ∧ countPid pid l = 1)
    ∧ unregisterFromSwitchboard uenv pid (SBFile.parsed l0) = SBFile.parsed l0 := by
  have hreg : ∀ (i : InstanceData) (f : SBFile),
      registerInSwitchboard env pid i f
        = (true, SBFile.parsed (registerList pid i (readInstances f))) := by
    intro i f
    simp [registerInSwitchboard, hdir, hser, hwr]
  refine ⟨?_, ?_, ?_⟩
  · rw [hreg i1 file, hreg i2 file]
    rw [hreg i2 (SBFile.parsed (registerList pid i1 (readInstances file)))]
    simp only [readInstances, registerList]
    rw [removeAllPid_append, removeAllPid_idem, removeAllPid_own_obj]
    simp
  · refine ⟨registerList pid i1 (readInstances file), by rw [hreg i1 file], ?_⟩
    rw [registerList, countPid, List.countP_append]
    have h0 := countPid_removeAllPid pid (readInstances file)
    rw [countPid] at h0
    rw [h0]
    simp [matchesPid]
  · rw [unregisterFromSwitchboard]
    rw [removeAllPid_of_no_match pid l0 habsent]
    split_ifs <;> rfl

/-- Witness for C4 at a concrete store and pid. -/
theorem c4_registry_idempotent_witness :
    ((RegEnv.mk true true true).dirOk = true
      ∧ (∀ v ∈ [SBVal.obj 3 (InstanceData.mk 9000 none ("other") ("t0")),
                 SBVal.nonObj ("junk")], matchesPid 7 v = false))
    ∧ (∃ l, (registerInSwitchboard (RegEnv.mk true true true) 7
            (InstanceData.mk 7777 none ("proj") ("t1")) SBFile.absent).2
          = SBFile.parsed l ∧ countPid 7 l = 1) :=
  ⟨⟨rfl, by decide⟩,
    (c4_registry_idempotent (RegEnv.mk true true true) (UnregEnv.mk true true true) 7
      (InstanceData.mk 7777 none ("proj") ("t1"))
      (InstanceData.mk 7778 none ("proj") ("t2")) SBFile.absent
      [SBVal.obj 3 (InstanceData.mk 9000 none ("other") ("t0")),
       SBVal.nonObj ("junk")]
      rfl rfl rfl (by decide)).2.1⟩

/- ------------------------------------------------------------------ -/
/- Claim C10                                                          -/
/- ------------------------------------------------------------------ -/

/-- Claim C10: Register and Unregister leave every record of a different
pid unchanged and in its original relative order: the register step keeps
exactly the non-matching records (in order) and appends the one new record
at the end, so the store holds exactly one record for the registering pid;
the unregister step removes only matching records and adds none (its
result is a sublist of the original). -/
theorem c10_frame_effect (l : List SBVal) (pid p2 : Int) (i : InstanceData)
    (hne : p2 ≠ pid) :
    (registerList pid i l).filter (matchesPid p2) = l.filter (matchesPid p2)
    ∧ (registerList pid i l).filter (matchesPid pid) = [SBVal.obj pid i]
    ∧ (registerList pid i l).getLast? = some (SBVal.obj pid i)
    ∧ (registerList pid i l).dropLast = l.filter (fun v => !matchesPid pid v)
    ∧ (removeAllPid pid l).filter (matchesPid p2) = l.filter (matchesPid p2)
    ∧ (removeAllPid pid l).Sublist l := by
  have hfilter : (removeAllPid pid l).filter (matchesPid p2)
      = l.filter (matchesPid p2) := by
    rw [removeAllPid_eq_filter, List.filter_filter]
    refine List.filter_congr (fun v _ => ?_)
    cases v with
    | obj p d =>
      by_cases hp : p = p2
      · have h1 : (p2 == pid) = false := by simp [hne]
        simp [matchesPid, hp, h1]
      · have h1 : (p == p2) = false := by simp [hp]
        simp [matchesPid, h1]
    | nonObj raw => simp [matchesPid]
  have hown : matchesPid p2 (SBVal.obj pid i) = false := by
    have h1 : (pid == p2) = false := by simp [Ne.symm hne]
    simp [matchesPid, h1]
  refine ⟨?_, ?_, ?_, ?_, hfilter, ?_⟩
  · rw [registerList, List.filter_append, hfilter]
    simp [hown]
  · rw [registerList, List.filter_append]
    have h0 : (removeAllPid pid l).filter (matchesPid pid) = [] := by
      rw [List.filter_eq_nil_iff]
      intro v hv
      have := countPid_removeAllPid pid l
      rw [countPid, List.countP_eq_zero] at this
      simp [this v hv]
    rw [h0]
    simp [matchesPid]
  · rw [registerList]
    exact List.getLast?_concat _
  · rw [registerList, List.dropLast_concat, removeAllPid_eq_filter]
  · rw [removeAllPid_eq_filter]
    exact List.filter_sublist l

/-- Witness for C10 at concrete pids and a mixed store. -/
theorem c10_frame_effect_witness :
    ((3 : Int) ≠ 7)
    ∧ (removeAllPid 7
        [SBVal.obj 3 (InstanceData.mk 9000 none ("other") ("t0")),
         SBVal.obj 7 (InstanceData.mk 7000 none ("self") ("t1")),
         SBVal.nonObj ("junk")]).Sublist
        [SBVal.obj 3 (InstanceData.mk 9000 none ("other") ("t0")),
         SBVal.obj 7 (InstanceData.mk 7000 none ("self") ("t1")),
         SBVal.nonObj ("junk")] :=
  ⟨by decide,
    (c10_frame_effect
      [SBVal.obj 3 (InstanceData.mk 9000 none ("other") ("t0")),
       SBVal.obj 7 (InstanceData.mk 7000 none ("self") ("t1")),
       SBVal.nonObj ("junk")] 7 3 (InstanceData.mk 7001 none ("self") ("t2"))
      (by decide)).2.2.2.2.2⟩

/- ------------------------------------------------------------------ -/
/- Server lifecycle lemmas                                            -/
/- ------------------------------------------------------------------ -/

/-- CreateListenerSocket only touches the socket and the Port member. -/
theorem createListenerSocket_frame (env : SocketEnv) (w : World) :
    (createListenerSocket env w).2.running = w.running
    ∧ (createListenerSocket env w).2.threadStarted = w.threadStarted
    ∧ (createListenerSocket env w).2.board = w.board := by
  rw [createListenerSocket]
  split_ifs <;> simp

/-- A failed registration leaves the switchboard file unchanged. -/
theorem registerInSwitchboard_fail_frame (env : RegEnv) (pid : Int)
    (inst : InstanceData) (file b : SBFile)
    (h : registerInSwitchboard env pid inst file = (false, b)) : b = file := by
  rw [registerInSwitchboard] at h
  split_ifs at h <;> simp_all

/-- A successful Start leaves bIsRunning set. -/
theorem start_success_running (env : StartEnv) (w w1 : World)
    (h : start env w = (true, w1)) : w1.running = true := by
  by_cases hrun : w.running = true
  · rw [start, if_pos hrun] at h
    simp at h
  · have hrun2 : w.running = false := by
      cases hw : w.running
      · rfl
      · exact absurd hw hrun
    rcases hc : createListenerSocket env.sockEnv w with ⟨ok1, w2⟩
    cases ok1
    · rw [start, hrun2] at h
      simp [hc] at h
    · rcases hr : registerInSwitchboard env.regEnv env.pid env.inst w2.board with ⟨ok2, b⟩
      cases ok2
      · rw [start, hrun2] at h
        simp [hc, hr] at h
      · rw [start, hrun2] at h
        simp [hc, hr] at h
        rw [← h]

/- ------------------------------------------------------------------ -/
/- Claim C3                                                           -/
/- ------------------------------------------------------------------ -/

/-- Environment where socket creation and bind succeed, the OS assigns
port 5555, and Listen fails. -/
def c3Env : StartEnv :=
  StartEnv.mk (SocketEnv.mk true true true true 5555 false)
    (RegEnv.mk true true true) (UnregEnv.mk true true true) 42
    (InstanceData.mk 5555 none ("proj") ("t"))

/-- Claim C3 fails on the code: on a fresh server whose Port is 0, a Start
that passes bind but fails at Listen returns failure yet leaves the Port
member set to the bound port, so GetPort() returns 5555, not 0, before any
successful Start — CreateListenerSocket assigns Port right after bind and
the listen-failure cleanup does not reset it.  This contradicts the header
doc of GetPort (0 if not started), so the code, not the claim, is wrong. -/
theorem c3_getPort_listen_fail :
    (freshWorld SBFile.absent).port = 0
    ∧ (start c3Env (freshWorld SBFile.absent)).1 = false
    ∧ (start c3Env (freshWorld SBFile.absent)).2.running = false
    ∧ (start c3Env (freshWorld SBFile.absent)).2.port = 5555 :=
  ⟨rfl, rfl, rfl, rfl⟩

/- ------------------------------------------------------------------ -/
/- Claim C8                                                           -/
/- ------------------------------------------------------------------ -/

/-- Claim C8: when registration fails during Start (after a listener
socket was obtained), Start returns failure, the switchboard is the result
of the attempted Unregister on the post-registration file (which a failed
registration left unchanged), the server is not running and no server
thread was started. -/
theorem c8_register_fail_rollback (env : StartEnv) (w w1 : World) (b1 : SBFile)
    (hrun : w.running = false) (hthread : w.threadStarted = false)
    (hsock : createListenerSocket env.sockEnv w = (true, w1))
    (hreg : registerInSwitchboard env.regEnv env.pid env.inst w1.board = (false, b1)) :
    start env w = (false,
      { w1 with board := unregisterFromSwitchboard env.unregEnv env.pid b1 })
    ∧ b1 = w1.board
    ∧ (start env w).2.running = false
    ∧ (start env w).2.threadStarted = false
    ∧ (start env w).2.board = unregisterFromSwitchboard env.unregEnv env.pid b1 := by
  have hframe := createListenerSocket_frame env.sockEnv w
  rw [hsock] at hframe
  have hstart : start env w = (false,
      { w1 with board := unregisterFromSwitchboard env.unregEnv env.pid b1 }) := by
    rw [start, hrun]
    simp [hsock, hreg]
  refine ⟨hstart, registerInSwitchboard_fail_frame env.regEnv env.pid env.inst
    w1.board b1 hreg, ?_, ?_, ?_⟩
  · rw [hstart]
    simpa using hframe.1.trans hrun
  · rw [hstart]
    simpa using hframe.2.1.trans hthread
  · rw [hstart]

/-- Concrete pieces for the C8 witness: directory creation fails. -/
def c8Env : StartEnv :=
  StartEnv.mk (SocketEnv.mk true true true true 4444 true)
    (RegEnv.mk false true true) (UnregEnv.mk true true true) 42
    (InstanceData.mk 4444 none ("proj") ("t"))

/-- The world after the successful socket setup in the C8 witness run. -/
def c8W1 : World := World.mk true 4444 false false (SBFile.parsed [])

/-- Witness for C8 at a concrete failing registration. -/
theorem c8_register_fail_rollback_witness :
    ((freshWorld (SBFile.parsed [])).running = false
      ∧ (freshWorld (SBFile.parsed [])).threadStarted = false
      ∧ createListenerSocket c8Env.sockEnv (freshWorld (SBFile.parsed []))
          = (true, c8W1)
      ∧ registerInSwitchboard c8Env.regEnv c8Env.pid c8Env.inst c8W1.board
          = (false, SBFile.parsed []))
    ∧ (start c8Env (freshWorld (SBFile.parsed []))).2.running = false :=
  ⟨⟨rfl, rfl, rfl, rfl⟩,
    (c8_register_fail_rollback c8Env (freshWorld (SBFile.parsed [])) c8W1
      (SBFile.parsed []) rfl rfl rfl rfl).2.2.1⟩

/- ------------------------------------------------------------------ -/
/- Claim C9                                                           -/
/- ------------------------------------------------------------------ -/

/-- Claim C9: after a successful Start and no intervening Stop, a second
Start (under any environment) returns failure and leaves the state, in
particular the Port member read by GetPort, unchanged. -/
theorem c9_double_start (env1 env2 : StartEnv) (w w1 : World)
    (h : start env1 w = (true, w1)) :
    start env2 w1 = (false, w1)
    ∧ (start env2 w1).2.port = w1.port := by
  have hrun := start_success_running env1 w w1 h
  have hsecond : start env2 w1 = (false, w1) := by
    rw [start, if_pos hrun]
  exact ⟨hsecond, by rw [hsecond]⟩

/-- Environment for a successful first Start in the C9 witness. -/
def c9Env : StartEnv :=
  StartEnv.mk (SocketEnv.mk true true true true 7777 true)
    (RegEnv.mk true true true) (UnregEnv.mk true true true) 42
    (InstanceData.mk 7777 none ("proj") ("t"))

/-- The world after the successful first Start in the C9 witness run. -/
def c9After : World :=
  World.mk true 7777 true true
    (SBFile.parsed [SBVal.obj 42 (InstanceData.mk 7777 none ("proj") ("t"))])

/-- Witness for C9 at a concrete successful first Start. -/
theorem c9_double_start_witness :
    start c9Env (freshWorld SBFile.absent) = (true, c9After)
    ∧ start c9Env c9After = (false, c9After) :=
  ⟨rfl, (c9_double_start c9Env c9Env (freshWorld SBFile.absent) c9After rfl).1⟩

end UEServer
